import Mathlib

/-
Verification of the wallet session manager of `@hazbase/react`
(src/context/WalletContext.tsx, src/hooks/useSigner.ts, useAddress.ts,
useNetwork.ts, src/types.ts).

The TypeScript code is shallowly embedded: every async external call
(EIP-1193 `request`, `provider.getNetwork()`, wallet construction) is
modelled by an explicit outcome value (`Except ExtErr _`) supplied as an
environment argument, so each operation becomes a pure function from the
pre-state (and the outcomes of the calls it performs) to the post-state
together with the result that the promise settles with.  React `setState`
commits are modelled as functional updates of a single `World` record,
matching the functional-update discipline of the source.
-/

namespace Hazbase

/-- Native-currency descriptor from `ChainConfig.nativeCurrency` in src/types.ts. -/
structure NativeCurrency where
  name : String
  symbol : String
  decimals : Nat
deriving Repr, DecidableEq

/-- Block-explorer descriptor from `ChainConfig.blockExplorers` in src/types.ts. -/
structure BlockExplorer where
  name : String
  url : String
deriving Repr, DecidableEq

/-- `ChainConfig` from src/types.ts. `id` is the EIP-155 decimal chain id. -/
structure ChainConfig where
  id : Nat
  name : String
  rpcUrls : List String
  icon : Option String := none
  nativeCurrency : Option NativeCurrency := none
  blockExplorers : Option (List BlockExplorer) := none
deriving Repr, DecidableEq

/-- `Status` from src/types.ts. -/
inductive Status
  | disconnected
  | connecting
  | connected
  | locked
deriving Repr, DecidableEq

/-- `Connector` from WalletContext.tsx; the TypeScript `null` case is `Option.none`. -/
inductive Connector
  | metamask
  | guest
deriving Repr, DecidableEq

/-- The provider handle: `BrowserProvider` over the injected interface, or a
`JsonRpcProvider` over an RPC URL. -/
inductive Provider
  | browser
  | jsonRpc (rpcUrl : String)
deriving Repr, DecidableEq

/-- The signer handle: a `JsonRpcSigner` obtained from the injected provider
(carrying its address), or an ethers `Wallet` carrying its private key and the
provider it is bound to. -/
inductive Signer
  | injected (address : String)
  | wallet (privateKey : String) (provider : Provider)
deriving Repr, DecidableEq

/-- `WalletState` from WalletContext.tsx (the Session record). -/
structure WalletState where
  status : Status
  connector : Option Connector
  provider : Option Provider
  signer : Option Signer
  account : Option String
  chainId : Option Nat
  chain : Option ChainConfig
deriving Repr, DecidableEq

/-- The initial Session passed to `useState` in `WalletProvider`. -/
def initialSession : WalletState :=
  { status := .disconnected
    connector := none
    provider := none
    signer := none
    account := none
    chainId := none
    chain := none }

/-- The world the provider component acts on: the React state, the
localStorage slot `@hazbase/react:last-connector`, and the set of EIP-1193
event subscriptions registered through `bindInjectedEvents` (one entry per
`bindInjectedEvents` call, recording the provider the handlers close over). -/
structure World where
  session : WalletState
  storage : Option String
  listeners : List Provider
deriving Repr, DecidableEq

/-- Fresh mount: initial state, empty storage slot, no subscriptions. -/
def World.initial : World :=
  { session := initialSession, storage := none, listeners := [] }

/-- An error raised by an external call (EIP-1193 `request`, `getNetwork`,
wallet construction); `code` is the optional numeric EIP-1193 error code. -/
structure ExtErr where
  code : Option Int := none
  message : String := ""
deriving Repr, DecidableEq

/-- Errors observable from the session-manager operations: the `Error`
values thrown by WalletContext.tsx itself, a re-raised external error, or the
TypeError that the `state.signer as Wallet` cast would produce. -/
inductive WErr
  | metamaskNotFound
  | noInjectedProvider
  | rpcUrlRequired
  | unsupportedConnector
  | ext (e : ExtErr)
  | typeError
deriving Repr, DecidableEq

/-- `resolveChain` from WalletContext.tsx:
`knownChains.find(c => c.id === id) ?? null`, with `null` id giving `null`. -/
def resolveChain (knownChains : List ChainConfig) (id : Option Nat) : Option ChainConfig :=
  match id with
  | none => none
  | some i => knownChains.find? (fun c => c.id == i)

/-- The chain-id hex string `0x${id.toString(16)}` used in the EIP-1193
switch/add requests. -/
def hexChainId (id : Nat) : String :=
  "0x" ++ (Nat.toDigits 16 id).asString

/-- The `wallet_addEthereumChain` request parameters built in
`ensureOnInjected` (and `addChain`). -/
structure AddChainParams where
  chainId : String
  chainName : String
  rpcUrls : List String
  nativeCurrency : NativeCurrency
  blockExplorerUrls : List String
deriving Repr, DecidableEq

/-- The add-chain payload construction of WalletContext.tsx:
`nativeCurrency ?? {ETH, ETH, 18}` and `blockExplorers?.map(b => b.url) ?? []`. -/
def addChainPayload (target : ChainConfig) : AddChainParams :=
  { chainId := hexChainId target.id
    chainName := target.name
    rpcUrls := target.rpcUrls
    nativeCurrency := target.nativeCurrency.getD ⟨"ETH", "ETH", 18⟩
    blockExplorerUrls := (target.blockExplorers.map (fun bs => bs.map (·.url))).getD [] }

/-- An EIP-1193 request issued to the injected interface during a switch. -/
inductive EthRequest
  | switchChain (chainIdHex : String)
  | addChain (p : AddChainParams)
deriving Repr, DecidableEq

/-- Outcomes of the external calls performed by `connectMetaMask`:
presence of `globalThis.ethereum?.request`, then the settlements of
`provider.send("eth_requestAccounts")`, `provider.getSigner()`,
`signer.getAddress()` and `provider.getNetwork()` (the latter reduced to the
numeric chain id it reports). -/
structure InjectedConnectEnv where
  hasRequest : Bool
  requestAccounts : Except ExtErr Unit
  getSigner : Except ExtErr Unit
  getAddress : Except ExtErr String
  getNetwork : Except ExtErr Nat
deriving Repr

/-- `connectMetaMask` from WalletContext.tsx.  Returns the settlement of the
returned promise together with the post-state.  The `status: "connecting"`
commit happens first; the explicit rollback to `disconnected` exists only on
the missing-interface branch; later failures propagate with no further
`setState`. -/
def connectMetaMask (kc : List ChainConfig) (env : InjectedConnectEnv) (w : World) :
    Except WErr Unit × World :=
  let w1 : World := { w with session := { w.session with status := .connecting } }
  if env.hasRequest = false then
    (.error .metamaskNotFound,
      { w1 with session := { w1.session with status := .disconnected } })
  else
    match env.requestAccounts with
    | .error e => (.error (.ext e), w1)
    | .ok _ =>
      match env.getSigner with
      | .error e => (.error (.ext e), w1)
      | .ok _ =>
        match env.getAddress with
        | .error e => (.error (.ext e), w1)
        | .ok account =>
          match env.getNetwork with
          | .error e => (.error (.ext e), w1)
          | .ok chainId =>
            (.ok (),
              { session :=
                  { status := .connected
                    connector := some .metamask
                    provider := some .browser
                    signer := some (.injected account)
                    account := some account
                    chainId := some chainId
                    chain := resolveChain kc (some chainId) }
                storage := some "metamask"
                listeners := w1.listeners ++ [Provider.browser] })

/-- Outcomes of the external calls performed by `connectGuest`:
`new Wallet(privKey, provider)` (throws on an invalid key) and
`provider.getNetwork()`. -/
structure GuestConnectEnv where
  mkWallet : Except ExtErr Unit
  getNetwork : Except ExtErr Nat
deriving Repr

/-- `connectGuest` from WalletContext.tsx.  `deriveAddress` abstracts the pure
address derivation performed by `wallet.getAddress()` on an ethers `Wallet`.
No event bridge is registered and there is no rollback on failure. -/
def connectGuest (kc : List ChainConfig) (deriveAddress : String → String)
    (env : GuestConnectEnv) (privKey rpcUrl : String) (w : World) :
    Except WErr Unit × World :=
  let w1 : World := { w with session := { w.session with status := .connecting } }
  let provider := Provider.jsonRpc rpcUrl
  match env.mkWallet with
  | .error e => (.error (.ext e), w1)
  | .ok _ =>
    let account := deriveAddress privKey
    match env.getNetwork with
    | .error e => (.error (.ext e), w1)
    | .ok chainId =>
      (.ok (),
        { session :=
            { status := .connected
              connector := some .guest
              provider := some provider
              signer := some (.wallet privKey provider)
              account := some account
              chainId := some chainId
              chain := resolveChain kc (some chainId) }
          storage := some "guest"
          listeners := w1.listeners })

/-- `disconnect` from WalletContext.tsx: clears the localStorage slot and
resets the Session to the initial record.  Note that `listeners` is left
untouched: the source never calls `removeListener`. -/
def disconnect (w : World) : World :=
  { session := initialSession, storage := none, listeners := w.listeners }

/-- `refreshNetwork` from WalletContext.tsx: no-op when no provider is in
state; otherwise re-reads the chain id (outcome `env`) and updates only
`chainId` and `chain`. -/
def refreshNetwork (kc : List ChainConfig) (env : Except ExtErr Nat) (w : World) :
    Except WErr Unit × World :=
  match w.session.provider with
  | none => (.ok (), w)
  | some _ =>
    match env with
    | .error e => (.error (.ext e), w)
    | .ok chainId =>
      (.ok (),
        { w with session :=
            { w.session with chainId := some chainId, chain := resolveChain kc (some chainId) } })

/-- Outcomes of the external calls performed on the injected interface during
a switch: presence of `ethereum?.request`, the settlement of
`wallet_switchEthereumChain` and, when reached, of `wallet_addEthereumChain`. -/
structure SwitchEnv where
  hasRequest : Bool
  switchResult : Except ExtErr Unit
  addResult : Except ExtErr Unit
deriving Repr

/-- `ensureOnInjected` from WalletContext.tsx.  Returns the settlement
together with the ordered list of EIP-1193 requests issued.  The add fallback
runs only when the switch error has code 4902 AND `target.rpcUrls` is
non-empty; otherwise the original error is re-thrown. -/
def ensureOnInjected (env : SwitchEnv) (target : ChainConfig) :
    Except WErr Unit × List EthRequest :=
  if env.hasRequest = false then (.error .noInjectedProvider, [])
  else
    let switchReq := EthRequest.switchChain (hexChainId target.id)
    match env.switchResult with
    | .ok _ => (.ok (), [switchReq])
    | .error err =>
      if err.code = some 4902 ∧ target.rpcUrls.length ≠ 0 then
        match env.addResult with
        | .ok _ => (.ok (), [switchReq, .addChain (addChainPayload target)])
        | .error e => (.error (.ext e), [switchReq, .addChain (addChainPayload target)])
      else
        (.error (.ext err), [switchReq])

/-- `switchChain` from WalletContext.tsx.  `env`/`renv` are the outcomes of
the injected-path calls (`renv` the `getNetwork` read of the triggered
`refreshNetwork`), `genv` the `getNetwork` read of the freshly built
`JsonRpcProvider` on the guest path.  Returns the settlement, the post-state
and the EIP-1193 requests issued.  On the guest path the truthiness test
`if (!rpcUrl)` rejects both a missing and an empty-string first RPC URL, and
the new `Wallet` is built from `prevWallet.privateKey`. -/
def switchChain (kc : List ChainConfig) (env : SwitchEnv) (renv : Except ExtErr Nat)
    (genv : Except ExtErr Nat) (target : ChainConfig) (w : World) :
    Except WErr Unit × World × List EthRequest :=
  match w.session.connector with
  | some .metamask =>
    match ensureOnInjected env target with
    | (.error e, reqs) => (.error e, w, reqs)
    | (.ok _, reqs) =>
      let r := refreshNetwork kc renv w
      (r.1, r.2, reqs)
  | some .guest =>
    match target.rpcUrls.head? with
    | none => (.error .rpcUrlRequired, w, [])
    | some rpcUrl =>
      if rpcUrl = "" then (.error .rpcUrlRequired, w, [])
      else
        match w.session.signer with
        | some (.wallet privateKey _) =>
          let provider := Provider.jsonRpc rpcUrl
          match genv with
          | .error e => (.error (.ext e), w, [])
          | .ok chainId =>
            (.ok (),
              { w with session :=
                  { w.session with
                    provider := some provider
                    signer := some (.wallet privateKey provider)
                    chainId := some chainId
                    chain := resolveChain kc (some chainId) } },
              [])
        | _ => (.error .typeError, w, [])
  | none => (.error .unsupportedConnector, w, [])

/-- The `accountsChanged` handler `onAccounts` registered by
`bindInjectedEvents`: `account := accounts?.[0] ?? null`, a functional update
touching only `account`. -/
def onAccounts (accounts : List String) (w : World) : World :=
  { w with session := { w.session with account := accounts.head? } }

/-- The `chainChanged` handler `onChain` registered by `bindInjectedEvents`:
re-reads the network from the bound provider (outcome `env`) and updates
`chainId` and `chain`; a failed read leaves the state untouched. -/
def onChain (kc : List ChainConfig) (env : Except ExtErr Nat) (w : World) : World :=
  match env with
  | .error _ => w
  | .ok chainId =>
    { w with session :=
        { w.session with chainId := some chainId, chain := resolveChain kc (some chainId) } }

/-- One observable transition of the provider component: a settled operation
call (with arbitrary external outcomes, hence covering every failure path and
every intermediate `connecting` commit, which is exactly the post-state of a
failing connect) or an event-bridge notification, which can only fire once
some subscription is registered. -/
inductive Step (kc : List ChainConfig) (da : String → String) : World → World → Prop
  | connectMM (env : InjectedConnectEnv) (w : World) :
      Step kc da w (connectMetaMask kc env w).2
  | connectG (env : GuestConnectEnv) (pk url : String) (w : World) :
      Step kc da w (connectGuest kc da env pk url w).2
  | disc (w : World) :
      Step kc da w (disconnect w)
  | refresh (env : Except ExtErr Nat) (w : World) :
      Step kc da w (refreshNetwork kc env w).2
  | switch (env : SwitchEnv) (renv genv : Except ExtErr Nat) (t : ChainConfig) (w : World) :
      Step kc da w (switchChain kc env renv genv t w).2.1
  | accountsChanged (accounts : List String) (w : World) (h : w.listeners ≠ []) :
      Step kc da w (onAccounts accounts w)
  | chainChanged (env : Except ExtErr Nat) (w : World) (h : w.listeners ≠ []) :
      Step kc da w (onChain kc env w)

/-- Worlds reachable from a fresh mount by any sequence of operations and
event-bridge notifications. -/
inductive Reachable (kc : List ChainConfig) (da : String → String) : World → Prop
  | init : Reachable kc da World.initial
  | step {w w' : World} : Reachable kc da w → Step kc da w w' → Reachable kc da w'

/-- `useSigner` from src/hooks/useSigner.ts, as a function of the context
value: `null` context throws, otherwise the hook returns status and signer
(the returned action closures carry no data and are omitted). -/
def useSigner (ctx : Option WalletState) : Except String (Status × Option Signer) :=
  match ctx with
  | none => .error "WalletProvider is missing"
  | some c => .ok (c.status, c.signer)

/-- `useAddress` from src/hooks/useAddress.ts: `null` context throws,
otherwise returns `{address, isConnected}`. -/
def useAddress (ctx : Option WalletState) : Except String (Option String × Bool) :=
  match ctx with
  | none => .error "WalletProvider is missing"
  | some c => .ok (c.account, c.status == .connected)

/-- `useNetwork` from src/hooks/useNetwork.ts: `null` context throws,
otherwise returns `{chainId, chain, connector}` (plus action closures,
omitted). -/
def useNetwork (ctx : Option WalletState) :
    Except String (Option Nat × Option ChainConfig × Option Connector) :=
  match ctx with
  | none => .error "WalletProvider is missing"
  | some c => .ok (c.chainId, c.chain, c.connector)

/-! Concrete sample data used to instantiate theorems with hypotheses. -/

/-- A known chain entry (id 1). -/
def chainA : ChainConfig := { id := 1, name := "Mainnet", rpcUrls := ["https://rpc.a"] }

/-- A switch target with a usable RPC URL (Scenario B of the spec). -/
def cfgB : ChainConfig := { id := 137, name := "Polygon", rpcUrls := ["https://rpc.b"] }

/-- A switch target with an empty RPC URL list (Scenario C of the spec). -/
def cfgEmptyRpc : ChainConfig := { id := 137, name := "Polygon", rpcUrls := [] }

/-- A switch target whose only RPC URL is the empty string. -/
def cfgBlankRpc : ChainConfig := { id := 137, name := "Polygon", rpcUrls := [""] }

/-- An unknown chain with no RPC URLs (id 999 = 0x3e7). -/
def cfg999 : ChainConfig := { id := 999, name := "Custom", rpcUrls := [] }

/-- An unknown chain with an RPC URL (id 999 = 0x3e7). -/
def cfg999Rpc : ChainConfig := { id := 999, name := "Custom", rpcUrls := ["https://rpc.x"] }

/-- All external calls of an injected connect succeed; account 0xabc, chain 1. -/
def envOkMM : InjectedConnectEnv :=
  { hasRequest := true, requestAccounts := .ok (), getSigner := .ok ()
    getAddress := .ok "0xabc", getNetwork := .ok 1 }

/-- EIP-1193 error 4001: the user rejected the account request. -/
def errRejected : ExtErr := { code := some 4001, message := "User rejected the request." }

/-- Injected interface present, but `eth_requestAccounts` is rejected. -/
def envRejectMM : InjectedConnectEnv :=
  { hasRequest := true, requestAccounts := .error errRejected, getSigner := .ok ()
    getAddress := .ok "0xabc", getNetwork := .ok 1 }

/-- EIP-1193 error 4902: unrecognized chain. -/
def err4902 : ExtErr := { code := some 4902, message := "Unrecognized chain ID" }

/-- All switch-path calls succeed. -/
def swEnvOk : SwitchEnv := { hasRequest := true, switchResult := .ok (), addResult := .ok () }

/-- The switch request fails with code 4902; the add request would succeed. -/
def swEnv4902 : SwitchEnv := { hasRequest := true, switchResult := .error err4902, addResult := .ok () }

/-- A connected local-key session holding private key K on chain 1. -/
def guestWorld : World :=
  { session :=
      { status := .connected, connector := some .guest
        provider := some (.jsonRpc "https://rpc.a")
        signer := some (.wallet "K" (.jsonRpc "https://rpc.a"))
        account := some "0xguest", chainId := some 1, chain := none }
    storage := some "guest", listeners := [] }

/-- A connected injected session with its event bridge registered. -/
def mmWorld : World :=
  { session :=
      { status := .connected, connector := some .metamask
        provider := some .browser, signer := some (.injected "0xabc")
        account := some "0xabc", chainId := some 1, chain := none }
    storage := some "metamask", listeners := [Provider.browser] }

/-! Claim theorems. -/

/-- C10: each of the three public hooks, invoked with no WalletProvider
ancestor (context value null), throws an error with message
"WalletProvider is missing" instead of returning a value. -/
theorem C10_hooks_require_provider :
    useSigner none = .error "WalletProvider is missing"
    ∧ useAddress none = .error "WalletProvider is missing"
    ∧ useNetwork none = .error "WalletProvider is missing" :=
  ⟨rfl, rfl, rfl⟩

/-- C8: `disconnect` is idempotent: two consecutive calls yield the same
post-world, the Session is the initial one after each call, and the persisted
last-connector record is cleared each time.  (Raising no error is reflected by
`disconnect` being a total function in the embedding: the source body
contains no `throw`.) -/
theorem C8_disconnect_idempotent :
    ∀ w : World,
      disconnect (disconnect w) = disconnect w
      ∧ (disconnect w).session = initialSession
      ∧ (disconnect (disconnect w)).session = initialSession
      ∧ (disconnect w).storage = none
      ∧ (disconnect (disconnect w)).storage = none :=
  fun _ => ⟨rfl, rfl, rfl, rfl, rfl⟩

/-- C7 counterexample: after a successful injected connect has registered the
accountsChanged/chainChanged handlers, `disconnect` resets the Session and
clears storage but the event-bridge subscription is still registered
afterwards, refuting the unregistration part of the claim. -/
theorem C7_counterexample :
    (disconnect (connectMetaMask [] envOkMM World.initial).2).session = initialSession
    ∧ (connectMetaMask [] envOkMM World.initial).2.listeners = [Provider.browser]
    ∧ (disconnect (connectMetaMask [] envOkMM World.initial).2).listeners = [Provider.browser]
    ∧ (disconnect (connectMetaMask [] envOkMM World.initial).2).listeners ≠ [] := by
  refine ⟨rfl, rfl, rfl, by decide⟩

/-- C7 amended: `disconnect()` unconditionally resets every Session field to
the initial disconnected state and clears the persisted record, but performs
no Event Bridge unregistration: the subscription list is left exactly as it
was. -/
theorem C7_amended_disconnect_resets_but_keeps_listeners :
    ∀ w : World,
      (disconnect w).session.status = .disconnected
      ∧ (disconnect w).session.connector = none
      ∧ (disconnect w).session.provider = none
      ∧ (disconnect w).session.signer = none
      ∧ (disconnect w).session.account = none
      ∧ (disconnect w).session.chainId = none
      ∧ (disconnect w).session.chain = none
      ∧ (disconnect w).storage = none
      ∧ (disconnect w).listeners = w.listeners :=
  fun _ => ⟨rfl, rfl, rfl, rfl, rfl, rfl, rfl, rfl, rfl⟩

/-- C6: on a local-key (guest) session, `switchChain` with a target whose
`rpcUrls` list is empty fails with RPC_URL_REQUIRED, issues no EIP-1193
request, and leaves the whole world (in particular every Session field)
exactly as it was. -/
theorem C6_empty_rpcUrls_rejected (kc : List ChainConfig) (env : SwitchEnv)
    (renv genv : Except ExtErr Nat) (target : ChainConfig) (w : World)
    (hconn : w.session.connector = some .guest)
    (hrpc : target.rpcUrls = []) :
    switchChain kc env renv genv target w = (.error .rpcUrlRequired, w, []) := by
  simp [switchChain, hconn, hrpc]

/-- C6 witness: Scenario C at concrete inputs. -/
theorem C6_witness :
    switchChain [] swEnvOk (.ok 137) (.ok 137) cfgEmptyRpc guestWorld
      = (.error .rpcUrlRequired, guestWorld, []) :=
  C6_empty_rpcUrls_rejected [] swEnvOk (.ok 137) (.ok 137) cfgEmptyRpc guestWorld rfl rfl

/-- C9: `refreshNetwork` is a no-op returning normally when no provider is in
state; otherwise a successful network read updates only `chainId` and `chain`
(to the directory lookup of the read id), every other Session field being
unchanged, and a failed read propagates the error with the world unchanged. -/
theorem C9_refreshNetwork_frame (kc : List ChainConfig) (cid : Nat) (e : ExtErr) (w : World) :
    (w.session.provider = none → ∀ env, refreshNetwork kc env w = (.ok (), w))
    ∧ (w.session.provider.isSome = true →
        (refreshNetwork kc (.ok cid) w).1 = .ok ()
        ∧ (refreshNetwork kc (.ok cid) w).2.session.chainId = some cid
        ∧ (refreshNetwork kc (.ok cid) w).2.session.chain = resolveChain kc (some cid)
        ∧ (refreshNetwork kc (.ok cid) w).2.session.status = w.session.status
        ∧ (refreshNetwork kc (.ok cid) w).2.session.connector = w.session.connector
        ∧ (refreshNetwork kc (.ok cid) w).2.session.provider = w.session.provider
        ∧ (refreshNetwork kc (.ok cid) w).2.session.signer = w.session.signer
        ∧ (refreshNetwork kc (.ok cid) w).2.session.account = w.session.account
        ∧ (refreshNetwork kc (.ok cid) w).2.storage = w.storage
        ∧ (refreshNetwork kc (.ok cid) w).2.listeners = w.listeners
        ∧ refreshNetwork kc (.error e) w = (.error (.ext e), w)) := by
  constructor
  · intro hp env
    simp [refreshNetwork, hp]
  · intro hp
    rcases hs : w.session.provider with _ | p
    · simp [hs] at hp
    · refine ⟨?_, ?_, ?_, ?_, ?_, ?_, ?_, ?_, ?_, ?_, ?_⟩ <;> simp [refreshNetwork, hs]

/-- C9 witness: no provider at the fresh mount (no-op), and a refresh of the
guest session reading chain id 5 updates `chainId` while keeping the
account. -/
theorem C9_witness :
    refreshNetwork [] (.ok 5) World.initial = (.ok (), World.initial)
    ∧ (refreshNetwork [] (Except.ok 5) guestWorld).2.session.chainId = some 5
    ∧ (refreshNetwork [] (Except.ok 5) guestWorld).2.session.account = guestWorld.session.account := by
  refine ⟨(C9_refreshNetwork_frame [] 5 errRejected World.initial).1 rfl _, ?_, ?_⟩
  · exact ((C9_refreshNetwork_frame [] 5 errRejected guestWorld).2 rfl).2.1
  · exact ((C9_refreshNetwork_frame [] 5 errRejected guestWorld).2 rfl).2.2.2.2.2.2.2.1

/-- Signing with an algorithm keyed by the private key: only a local-key
signer can sign; an injected signer holds no key material in this model. -/
def signWith {S : Type} (sign : String → String → S) (msg : String) : Signer → Option S
  | .injected _ => none
  | .wallet pk _ => some (sign pk msg)

/-- The signature a Session would produce for a message with a given
key-indexed signing algorithm. -/
def sessionSign {S : Type} (sign : String → String → S) (msg : String)
    (st : WalletState) : Option S :=
  st.signer.bind (signWith sign msg)

/-- C5 counterexample: `cfgBlankRpc` has a non-empty `rpcUrls` list (its only
entry is the empty string), yet on a connected local-key session the switch
fails with RPC_URL_REQUIRED and builds no new signer, because the source
tests the first URL for truthiness (`if (!rpcUrl) throw`), not the list for
emptiness. -/
theorem C5_counterexample :
    cfgBlankRpc.rpcUrls ≠ []
    ∧ switchChain [] swEnvOk (.ok 137) (.ok 137) cfgBlankRpc guestWorld
        = (.error .rpcUrlRequired, guestWorld, []) := by
  refine ⟨by decide, rfl⟩

/-- C5 amended: on a connected local-key session, for every target whose
FIRST RPC URL is present and non-empty, the switch succeeds (given a
successful network read), rebuilds the signer from exactly the private key of
the current signer bound to the new provider — so for every key-indexed
signing algorithm and every message the new Session signs identically to the
old one — leaves `account`, `status` and `connector` unchanged, and commits
as `chainId` the value reported by the new provider's network read (an
arbitrary `cid`, not a value assumed from `target.id`). -/
theorem C5_amended_guest_switch (kc : List ChainConfig) (env : SwitchEnv)
    (renv : Except ExtErr Nat) (target : ChainConfig) (w : World)
    (pk : String) (prov : Provider) (u : String) (cid : Nat)
    (hconn : w.session.connector = some .guest)
    (hsig : w.session.signer = some (.wallet pk prov))
    (hu : target.rpcUrls.head? = some u) (hne : u ≠ "") :
    (switchChain kc env renv (.ok cid) target w).1 = .ok ()
    ∧ (switchChain kc env renv (.ok cid) target w).2.1.session.signer
        = some (.wallet pk (.jsonRpc u))
    ∧ (switchChain kc env renv (.ok cid) target w).2.1.session.provider
        = some (.jsonRpc u)
    ∧ (switchChain kc env renv (.ok cid) target w).2.1.session.account = w.session.account
    ∧ (switchChain kc env renv (.ok cid) target w).2.1.session.status = w.session.status
    ∧ (switchChain kc env renv (.ok cid) target w).2.1.session.connector = w.session.connector
    ∧ (switchChain kc env renv (.ok cid) target w).2.1.session.chainId = some cid
    ∧ (switchChain kc env renv (.ok cid) target w).2.1.session.chain = resolveChain kc (some cid)
    ∧ ∀ (S : Type) (sign : String → String → S) (msg : String),
        sessionSign sign msg (switchChain kc env renv (.ok cid) target w).2.1.session
          = sessionSign sign msg w.session := by
  refine ⟨?_, ?_, ?_, ?_, ?_, ?_, ?_, ?_, ?_⟩ <;>
    simp [switchChain, hconn, hsig, hu, hne, sessionSign, signWith]

/-- C5 witness: Scenario B — switching the guest session (key K) to
`cfgB` whose RPC reports 137 keeps the key and account and commits
chain id 137. -/
theorem C5_witness :
    (switchChain [] swEnvOk (.ok 137) (.ok 137) cfgB guestWorld).1 = .ok ()
    ∧ (switchChain [] swEnvOk (.ok 137) (.ok 137) cfgB guestWorld).2.1.session.signer
        = some (.wallet "K" (.jsonRpc "https://rpc.b"))
    ∧ (switchChain [] swEnvOk (.ok 137) (.ok 137) cfgB guestWorld).2.1.session.account
        = guestWorld.session.account
    ∧ (switchChain [] swEnvOk (.ok 137) (.ok 137) cfgB guestWorld).2.1.session.chainId
        = some 137 := by
  have h := C5_amended_guest_switch [] swEnvOk (.ok 137) cfgB guestWorld "K"
    (.jsonRpc "https://rpc.a") "https://rpc.b" 137 rfl rfl rfl (by decide)
  exact ⟨h.1, h.2.1, h.2.2.2.1, h.2.2.2.2.2.2.1⟩

/-- C1 counterexample: the injected interface is present but the user rejects
`eth_requestAccounts`: the error is re-raised, yet the Session status is left
at `connecting`, not committed back to `disconnected`, refuting the rollback
part of the claim. -/
theorem C1_counterexample :
    (connectMetaMask [] envRejectMM World.initial).1 = .error (.ext errRejected)
    ∧ (connectMetaMask [] envRejectMM World.initial).2.session.status = .connecting
    ∧ (connectMetaMask [] envRejectMM World.initial).2.session.status ≠ .disconnected := by
  refine ⟨rfl, rfl, by decide⟩

/-- C1 amended: every failure is re-raised, but only the
missing-injected-interface failure of `connectMetaMask` commits status back
to `disconnected`; a failure at any later step of `connectMetaMask`, and
every failure of `connectGuest`, leaves the Session at status `connecting`.
In all failure cases no Session field other than `status` is modified. -/
theorem C1_amended_failure_paths :
    (∀ (kc : List ChainConfig) (env : InjectedConnectEnv) (w : World) (e : WErr),
      (connectMetaMask kc env w).1 = .error e →
        (env.hasRequest = false →
          e = .metamaskNotFound
          ∧ (connectMetaMask kc env w).2.session = { w.session with status := .disconnected })
        ∧ (env.hasRequest = true →
          (connectMetaMask kc env w).2.session = { w.session with status := .connecting }))
    ∧ (∀ (kc : List ChainConfig) (da : String → String) (env : GuestConnectEnv)
        (pk url : String) (w : World) (e : WErr),
      (connectGuest kc da env pk url w).1 = .error e →
        (connectGuest kc da env pk url w).2.session = { w.session with status := .connecting }) := by
  constructor
  · intro kc env w e he
    obtain ⟨hr, ra, gs, ga, gn⟩ := env
    cases hr <;> cases ra <;> cases gs <;> cases ga <;> cases gn <;>
      simp_all [connectMetaMask]
  · intro kc da env pk url w e he
    obtain ⟨mw, gn⟩ := env
    cases mw <;> cases gn <;> simp_all [connectGuest]

/-- C1 witness: the rejected injected connect and a guest connect whose
network read fails both end with status `connecting`. -/
theorem C1_witness :
    (connectMetaMask [] envRejectMM World.initial).2.session
      = { initialSession with status := Status.connecting }
    ∧ (connectGuest [] (fun k => k)
        { mkWallet := .ok (), getNetwork := .error errRejected }
        "K" "https://rpc.a" World.initial).2.session
      = { initialSession with status := Status.connecting } := by
  refine ⟨(C1_amended_failure_paths.1 [] envRejectMM World.initial (.ext errRejected) rfl).2 rfl,
    C1_amended_failure_paths.2 [] (fun k => k)
      { mkWallet := .ok (), getNetwork := .error errRejected }
      "K" "https://rpc.a" World.initial (.ext errRejected) rfl⟩

/-- C4 counterexample: on a connected injected session, a switch towards
`cfg999` (whose `rpcUrls` list is empty) failing with code 4902 does NOT
issue a `wallet_addEthereumChain` request: the 4902 error is re-raised and
only the switch request was issued, refuting the claim that every 4902 error
triggers the add fallback. -/
theorem C4_counterexample :
    err4902.code = some 4902
    ∧ switchChain [] swEnv4902 (.ok 999) (.ok 999) cfg999 mmWorld
        = (.error (.ext err4902), mmWorld, [EthRequest.switchChain "0x3e7"]) := by
  refine ⟨rfl, rfl⟩

/-- C4 amended: on a connected injected session, when the switch request
fails with code 4902 AND `target.rpcUrls` is non-empty, the add request built
from `target` (hex chain id, name, RPC URL list, native currency defaulting
to {ETH, ETH, 18}, explorer URLs defaulting to []) is issued and, when it
succeeds, `refreshNetwork` is triggered (the call settles exactly as that
refresh does); a failing add request is re-raised.  An error with a code
other than 4902, and a 4902 error on a target with empty `rpcUrls`, are
surfaced to the caller unchanged with no add request issued. -/
theorem C4_amended_injected_switch (kc : List ChainConfig) (renv genv : Except ExtErr Nat)
    (add : Except ExtErr Unit) (err : ExtErr) (target : ChainConfig) (w : World)
    (hconn : w.session.connector = some .metamask) :
    (err.code = some 4902 → target.rpcUrls ≠ [] →
      (switchChain kc ⟨true, .error err, add⟩ renv genv target w).2.2
        = [EthRequest.switchChain (hexChainId target.id),
           EthRequest.addChain (addChainPayload target)]
      ∧ (add = .ok () →
          (switchChain kc ⟨true, .error err, add⟩ renv genv target w).1
            = (refreshNetwork kc renv w).1
          ∧ (switchChain kc ⟨true, .error err, add⟩ renv genv target w).2.1
            = (refreshNetwork kc renv w).2)
      ∧ (∀ e2, add = .error e2 →
          (switchChain kc ⟨true, .error err, add⟩ renv genv target w).1 = .error (.ext e2)
          ∧ (switchChain kc ⟨true, .error err, add⟩ renv genv target w).2.1 = w))
    ∧ (err.code ≠ some 4902 →
        switchChain kc ⟨true, .error err, add⟩ renv genv target w
          = (.error (.ext err), w, [EthRequest.switchChain (hexChainId target.id)]))
    ∧ (err.code = some 4902 → target.rpcUrls = [] →
        switchChain kc ⟨true, .error err, add⟩ renv genv target w
          = (.error (.ext err), w, [EthRequest.switchChain (hexChainId target.id)]))
    ∧ (addChainPayload target).chainId = hexChainId target.id
    ∧ (addChainPayload target).chainName = target.name
    ∧ (addChainPayload target).rpcUrls = target.rpcUrls
    ∧ (target.nativeCurrency = none →
        (addChainPayload target).nativeCurrency = ⟨"ETH", "ETH", 18⟩)
    ∧ (∀ nc, target.nativeCurrency = some nc → (addChainPayload target).nativeCurrency = nc)
    ∧ (target.blockExplorers = none → (addChainPayload target).blockExplorerUrls = [])
    ∧ (∀ bs, target.blockExplorers = some bs →
        (addChainPayload target).blockExplorerUrls = bs.map (·.url)) := by
  have hlen : target.rpcUrls ≠ [] → target.rpcUrls.length ≠ 0 := by
    intro h hc
    exact h (List.length_eq_zero.mp hc)
  refine ⟨?_, ?_, ?_, rfl, rfl, rfl, ?_, ?_, ?_, ?_⟩
  · intro h4902 hne
    refine ⟨?_, ?_, ?_⟩
    · cases add <;>
        simp [switchChain, ensureOnInjected, hconn, h4902, hlen hne]
    · intro hadd
      subst hadd
      constructor <;>
        simp [switchChain, ensureOnInjected, hconn, h4902, hlen hne]
    · intro e2 hadd
      subst hadd
      constructor <;>
        simp [switchChain, ensureOnInjected, hconn, h4902, hlen hne]
  · intro hne
    simp [switchChain, ensureOnInjected, hconn, hne]
  · intro h4902 hempty
    simp [switchChain, ensureOnInjected, hconn, h4902, hempty]
  · intro h
    simp [addChainPayload, h]
  · intro nc h
    simp [addChainPayload, h]
  · intro h
    simp [addChainPayload, h]
  · intro bs h
    simp [addChainPayload, h]

/-- C4 witness: a 4902 failure on `cfg999Rpc` (non-empty RPC list) issues the
add request with the default native currency and empty explorer list, then
settles as the triggered refresh (which reads chain id 999); a 4001 rejection
is surfaced unchanged. -/
theorem C4_witness :
    (switchChain [] ⟨true, .error err4902, .ok ()⟩ (.ok 999) (.ok 999) cfg999Rpc mmWorld).2.2
      = [EthRequest.switchChain "0x3e7",
         EthRequest.addChain
           { chainId := "0x3e7", chainName := "Custom", rpcUrls := ["https://rpc.x"]
             nativeCurrency := ⟨"ETH", "ETH", 18⟩, blockExplorerUrls := [] }]
    ∧ (switchChain [] ⟨true, .error err4902, .ok ()⟩ (.ok 999) (.ok 999) cfg999Rpc mmWorld).2.1
        = (refreshNetwork [] (.ok 999) mmWorld).2
    ∧ switchChain [] ⟨true, .error errRejected, .ok ()⟩ (.ok 1) (.ok 1) cfg999Rpc mmWorld
        = (.error (.ext errRejected), mmWorld, [EthRequest.switchChain "0x3e7"]) := by
  have h := C4_amended_injected_switch [] (.ok 999) (.ok 999) (.ok ()) err4902 cfg999Rpc
    mmWorld rfl
  have h2 := C4_amended_injected_switch [] (.ok 1) (.ok 1) (.ok ()) errRejected cfg999Rpc
    mmWorld rfl
  refine ⟨?_, ((h.1 rfl (by decide)).2.1 rfl).2, h2.2.1 (by decide)⟩
  have := (h.1 rfl (by decide)).1
  simpa [hexChainId, addChainPayload, cfg999Rpc] using this

/-- C2: code bug — the claimed invariant "status = connected iff signer and
account are both present, never exactly one" is violated at a reachable
state: after a successful injected connect, an accountsChanged notification
carrying an empty address list leaves status `connected` and the signer in
place while `account` becomes absent. -/
theorem C2_revoked_accounts_break_invariant :
    Reachable [] (fun k => k) (onAccounts [] (connectMetaMask [] envOkMM World.initial).2)
    ∧ (onAccounts [] (connectMetaMask [] envOkMM World.initial).2).session.status = .connected
    ∧ (onAccounts [] (connectMetaMask [] envOkMM World.initial).2).session.signer.isSome = true
    ∧ (onAccounts [] (connectMetaMask [] envOkMM World.initial).2).session.account = none := by
  refine ⟨?_, rfl, rfl, rfl⟩
  exact Reachable.step
    (Reachable.step Reachable.init (Step.connectMM envOkMM World.initial))
    (Step.accountsChanged [] _ (by decide))

/-- Helper: `refreshNetwork` preserves "chain is the directory lookup of
chainId". -/
theorem refreshNetwork_preserves_chain (kc : List ChainConfig) (env : Except ExtErr Nat)
    (w : World) (h : w.session.chain = resolveChain kc w.session.chainId) :
    (refreshNetwork kc env w).2.session.chain
      = resolveChain kc (refreshNetwork kc env w).2.session.chainId := by
  rcases hp : w.session.provider with _ | p <;> rcases env with e | cid <;>
    simp_all [refreshNetwork]

/-- Helper: every observable transition preserves "chain is the directory
lookup of chainId". -/
theorem step_preserves_chain {kc : List ChainConfig} {da : String → String}
    {w w' : World} (hs : Step kc da w w')
    (h : w.session.chain = resolveChain kc w.session.chainId) :
    w'.session.chain = resolveChain kc w'.session.chainId := by
  cases hs with
  | connectMM env w =>
      obtain ⟨hr, ra, gs, ga, gn⟩ := env
      cases hr <;> cases ra <;> cases gs <;> cases ga <;> cases gn <;>
        simp_all [connectMetaMask]
  | connectG env pk url w =>
      obtain ⟨mw, gn⟩ := env
      cases mw <;> cases gn <;> simp_all [connectGuest]
  | disc w =>
      simp [disconnect, initialSession, resolveChain]
  | refresh env w =>
      exact refreshNetwork_preserves_chain kc env w h
  | switch env renv genv t w =>
      rcases hc : w.session.connector with _ | c
      · simp_all [switchChain]
      · cases c with
        | metamask =>
          rcases he : ensureOnInjected env t with ⟨r, reqs⟩
          cases r with
          | error e => simp_all [switchChain]
          | ok u =>
            have hrf := refreshNetwork_preserves_chain kc renv w h
            simp_all [switchChain]
        | guest =>
          rcases hu : t.rpcUrls.head? with _ | u
          · simp_all [switchChain]
          · by_cases hu0 : u = ""
            · simp_all [switchChain]
            · rcases hsig : w.session.signer with _ | s
              · simp_all [switchChain]
              · cases s with
                | injected a => simp_all [switchChain]
                | wallet pk p =>
                  rcases genv with e | cid <;> simp_all [switchChain]
  | accountsChanged accounts w hl =>
      simp_all [onAccounts]
  | chainChanged env w hl =>
      rcases env with e | cid <;> simp_all [onChain]

/-- C3: in every reachable world, `chain` equals the Chain Directory lookup
(`knownChains.find` by id) of the current `chainId`; in particular `chain` is
absent whenever `chainId` is absent, and equals the `find?` result (absent
when the id is not in the directory) whenever `chainId` is present. -/
theorem C3_chain_is_directory_lookup (kc : List ChainConfig) (da : String → String)
    (w : World) (h : Reachable kc da w) :
    w.session.chain = resolveChain kc w.session.chainId
    ∧ (w.session.chainId = none → w.session.chain = none)
    ∧ (∀ c, w.session.chainId = some c →
        w.session.chain = kc.find? (fun e => e.id == c)) := by
  have main : w.session.chain = resolveChain kc w.session.chainId := by
    induction h with
    | init => rfl
    | step h1 h2 ih => exact step_preserves_chain h2 ih
  refine ⟨main, ?_, ?_⟩
  · intro hn
    rw [main, hn]
    rfl
  · intro c hc
    rw [main, hc]
    rfl

/-- C3 witness: after a successful injected connect on directory
`[chainA]` reading chain id 1, `chain` is the lookup of `chainId`. -/
theorem C3_witness :
    (connectMetaMask [chainA] envOkMM World.initial).2.session.chain
      = resolveChain [chainA]
          (connectMetaMask [chainA] envOkMM World.initial).2.session.chainId :=
  (C3_chain_is_directory_lookup [chainA] (fun k => k) _
    (Reachable.step Reachable.init (Step.connectMM envOkMM World.initial))).1

end Hazbase
